import Mathlib

/-!
# Verification of `src/extrator_portal.py`

Shallow embedding of the session-scoped record-processing pipeline of the
financial-portal extractor.  The external world (browser driver, portal
DOM, input spreadsheet) is modelled by an explicit environment that says,
for each interaction point, whether the operation succeeds or which Python
exception it raises; everything the program itself does (dictionary
lookups, control flow, the try/except blocks, file writes) is translated
from the source.
-/

set_option maxHeartbeats 1000000

namespace ExtratorPortal

/-- The Python exceptions relevant to the modelled fragment: a dictionary
subscript on a missing key raises `KeyError`; Selenium bounded waits raise
`TimeoutException`; other driver and I/O failures are carried by class
name, which is all the code ever inspects (`type(exc).__name__`,
`src/extrator_portal.py` line 330). -/
inductive Exc where
  | keyError (key : String)
  | timeout
  | webDriver
  | fileNotFound
  | valueError
  | other (className : String)
deriving DecidableEq, Repr

/-- `type(exc).__name__`, as used at line 330 of the source. -/
def Exc.name : Exc → String
  | .keyError _ => "KeyError"
  | .timeout => "TimeoutException"
  | .webDriver => "WebDriverException"
  | .fileNotFound => "FileNotFoundError"
  | .valueError => "ValueError"
  | .other n => n

/-- The selector map loaded from `selectors.json` (`carregar_selectors`,
lines 90-103): a flat string-to-string dictionary. -/
abbrev Selectors := List (String × String)

/-- Python `key in sel` / `sel.get`: lookup without raising. -/
def selLookup (sel : Selectors) (key : String) : Option String :=
  (sel.find? (fun kv => kv.1 == key)).map (·.2)

/-- Python `sel[key]`: raises `KeyError` when the key is absent, as a dict
subscript does. -/
def selIndex (sel : Selectors) (key : String) : Except Exc String :=
  match selLookup sel key with
  | some v => Except.ok v
  | none => Except.error (Exc.keyError key)

/-- Python `"botao_consultar" in sel` (line 249). -/
def selContains (sel : Selectors) (key : String) : Bool :=
  (selLookup sel key).isSome

/-- Run one external interaction: the environment either lets it succeed
(`none`) or makes it raise a given exception. -/
def raiseIf : Option Exc → Except Exc Unit
  | some e => Except.error e
  | none => Except.ok ()

/-- A file system mapping each path to the list of chunks written to it;
the file's content is the concatenation of its chunks, and each
`append_streaming` call contributes exactly one chunk (one record line). -/
abbrev FileSystem := String → List String

/-- `open(path, "w")` followed by one write: truncates and leaves exactly
the written chunk. -/
def fsWrite (fs : FileSystem) (path content : String) : FileSystem :=
  fun q => if q = path then [content] else fs q

/-- `open(path, "a")` followed by one write: appends one chunk. -/
def fsAppend (fs : FileSystem) (path content : String) : FileSystem :=
  fun q => if q = path then fs path ++ [content] else fs q

/-- `inicializar_streaming` (lines 205-212): recreate the streaming file
with only the header line. -/
def inicializar_streaming (fs : FileSystem) (streamingPath : String) : FileSystem :=
  fsWrite fs streamingPath "cpf;status;mensagem\n"

/-- `append_streaming` (lines 215-221): append one semicolon-delimited,
newline-terminated line. -/
def append_streaming (fs : FileSystem) (streamingPath cpf status mensagem : String) :
    FileSystem :=
  fsAppend fs streamingPath (cpf ++ ";" ++ status ++ ";" ++ mensagem ++ "\n")

/-- The per-record result dictionary (lines 262-267 and 323-328).  `Saldo`
is the exact decimal `1235.00`, represented as a rational. -/
structure Resultado where
  cpf : String
  status : String
  parcelasPagas : Option Int
  saldo : Option ℚ
deriving DecidableEq, Repr

/-- The portal's behaviour at each interaction point of the per-record
protocol of `extrair_dados_para_cpf`: `none` means the step succeeds,
`some e` means it raises `e`. -/
structure PortalRecordBehavior where
  waitCampoCpf : Option Exc
  fillCpf : Option Exc
  findBotao : Option Exc
  click : Option Exc
  blur : Option Exc
  waitGrid : Option Exc
deriving DecidableEq, Repr

/-- `extrair_dados_para_cpf` (lines 228-270): fill the identifier field,
trigger the query (submit button when configured, otherwise blur), wait
for the results grid, and return the fixed placeholder payload.  Any step
may raise; the function itself catches nothing. -/
def extrair_dados_para_cpf (sel : Selectors) (cpf : String)
    (pb : PortalRecordBehavior) : Except Exc Resultado := do
  let _ ← selIndex sel "campo_cpf"
  let _ ← raiseIf pb.waitCampoCpf
  let _ ← raiseIf pb.fillCpf
  let _ ← (if selContains sel "botao_consultar" then do
      let _ ← raiseIf pb.findBotao
      raiseIf pb.click
    else
      raiseIf pb.blur)
  let _ ← selIndex sel "grid_resultados"
  let _ ← raiseIf pb.waitGrid
  pure { cpf := cpf, status := "ok", parcelasPagas := some 12, saldo := some 1235 }

/-- What the loop body retains for one processed record: the dictionary
appended to `resultados`, and the `status` / `mensagem_streaming` pair
passed to `append_streaming`. -/
structure RecordStep where
  dados : Resultado
  status : String
  mensagem : String
deriving DecidableEq, Repr

/-- The try/except around the per-record protocol (lines 317-330): on
success keep the returned dictionary, with `status = dados.get("Status",
"ok")`; on any exception substitute the error dictionary with null payload
and the message `erro: <class name>`.  Total by construction: no exception
leaves this step. -/
def processRecordStep (sel : Selectors) (cpf : String)
    (pb : PortalRecordBehavior) : RecordStep :=
  match extrair_dados_para_cpf sel cpf pb with
  | Except.ok dados =>
      { dados := dados, status := dados.status, mensagem := "extração concluída" }
  | Except.error exc =>
      { dados := { cpf := cpf, status := "erro", parcelasPagas := none, saldo := none },
        status := "erro", mensagem := "erro: " ++ exc.name }

/-- One input record (`carregar_entrada` returns a list of row
dictionaries).  `cpf` is the value of the `CPF` column after Python's
`str(...)` conversion, `none` when the column entry is missing. -/
structure Row where
  cpf : Option String
deriving DecidableEq, Repr

/-- Python's `str.strip()`: drop whitespace from both ends.  Written by
structural recursion over the character list so that it evaluates inside
the kernel. -/
def pyStrip (s : String) : String :=
  String.mk (((s.data.dropWhile Char.isWhitespace).reverse.dropWhile
    Char.isWhitespace).reverse)

/-- `str(row.get("CPF", "")).strip()` (line 312). -/
def rowCpf (row : Row) : String := pyStrip (row.cpf.getD "")

/-- State threaded through the batch loop of `executar_extracao`
(lines 311-342): the file system, the in-memory `resultados` list, and —
as observable traces of the run — the lines appended to the streaming
file, the `(idx, total)` pairs at each progress report, and the indices of
skipped rows. -/
structure LoopState where
  fs : FileSystem
  resultados : List Resultado
  streamLines : List String
  progress : List (Nat × Nat)
  skipped : List Nat

/-- The `for idx, row in enumerate(registros, start=1)` loop body
(lines 311-342): skip rows whose trimmed identifier is empty; otherwise
run the guarded per-record step, retain the result, append the streaming
line, and report progress with the pair `(idx, total)` whose ratio the
source logs as a percentage. -/
def runLoopAux (sel : Selectors) (rb : Nat → PortalRecordBehavior)
    (streamingPath : String) (total : Nat) :
    Nat → List Row → LoopState → LoopState
  | _, [], st => st
  | idx, row :: rest, st =>
      let cpf := rowCpf row
      if cpf = "" then
        runLoopAux sel rb streamingPath total (idx + 1) rest
          { st with skipped := st.skipped ++ [idx] }
      else
        let step := processRecordStep sel cpf (rb idx)
        runLoopAux sel rb streamingPath total (idx + 1) rest
          { fs := append_streaming st.fs streamingPath cpf step.status step.mensagem,
            resultados := st.resultados ++ [step.dados],
            streamLines :=
              st.streamLines ++ [cpf ++ ";" ++ step.status ++ ";" ++ step.mensagem ++ "\n"],
            progress := st.progress ++ [(idx, total)],
            skipped := st.skipped }

/-- The whole batch loop: `total = len(registros)` (line 308), indices
start at 1, all accumulators start empty. -/
def runLoop (sel : Selectors) (rb : Nat → PortalRecordBehavior)
    (streamingPath : String) (rows : List Row) (fs : FileSystem) : LoopState :=
  runLoopAux sel rb streamingPath rows.length 1 rows
    { fs := fs, resultados := [], streamLines := [], progress := [], skipped := [] }

/-- The identifiers of the rows that are not skipped, in input order. -/
def validCpfs : List Row → List String
  | [] => []
  | r :: rs => if rowCpf r = "" then validCpfs rs else rowCpf r :: validCpfs rs

/-- The processed records of a batch, in input order: each non-skipped
row paired with the outcome of its guarded per-record step. -/
def processedSeq (sel : Selectors) (rb : Nat → PortalRecordBehavior) :
    Nat → List Row → List (String × RecordStep)
  | _, [] => []
  | idx, r :: rs =>
      if rowCpf r = "" then processedSeq sel rb (idx + 1) rs
      else (rowCpf r, processRecordStep sel (rowCpf r) (rb idx)) ::
        processedSeq sel rb (idx + 1) rs

/-- The `(idx, total)` pairs reported by the progress log, in order. -/
def progressSeq (total : Nat) : Nat → List Row → List (Nat × Nat)
  | _, [] => []
  | idx, r :: rs =>
      if rowCpf r = "" then progressSeq total (idx + 1) rs
      else (idx, total) :: progressSeq total (idx + 1) rs

/-- The 1-based indices of the skipped rows, in order. -/
def skippedSeq : Nat → List Row → List Nat
  | _, [] => []
  | idx, r :: rs =>
      if rowCpf r = "" then idx :: skippedSeq (idx + 1) rs
      else skippedSeq (idx + 1) rs

/-- The streaming line written for one processed record. -/
def lineOf (p : String × RecordStep) : String :=
  p.1 ++ ";" ++ p.2.status ++ ";" ++ p.2.mensagem ++ "\n"

/-- External behaviour of the login interactions (`login`,
lines 128-155), in source order. -/
structure LoginBehavior where
  navGet : Option Exc
  waitUser : Option Exc
  findSenha : Option Exc
  findEntrar : Option Exc
  fill : Option Exc
  submit : Option Exc
  waitMarker : Option Exc
deriving DecidableEq, Repr

/-- `login` (lines 128-155): navigate to the portal, wait for
`sel["campo_usuario"]`, find `sel["campo_senha"]` and
`sel["botao_entrar"]`, fill and submit, then wait for the post-login
marker `sel["menu_cadastro"]`.  Each `sel[...]` subscript raises
`KeyError` when the key is absent, before the corresponding wait. -/
def login (sel : Selectors) (lb : LoginBehavior) : Except Exc Unit := do
  let _ ← raiseIf lb.navGet
  let _ ← selIndex sel "campo_usuario"
  let _ ← raiseIf lb.waitUser
  let _ ← selIndex sel "campo_senha"
  let _ ← raiseIf lb.findSenha
  let _ ← selIndex sel "botao_entrar"
  let _ ← raiseIf lb.findEntrar
  let _ ← raiseIf lb.fill
  let _ ← raiseIf lb.submit
  let _ ← selIndex sel "menu_cadastro"
  raiseIf lb.waitMarker

/-- External behaviour of the navigation interactions
(`navegar_para_modulo_consulta`, lines 158-176). -/
structure NavBehavior where
  waitMenuCadastro : Option Exc
  clickCadastro : Option Exc
  waitMenuProposta : Option Exc
  clickProposta : Option Exc
deriving DecidableEq, Repr

/-- `navegar_para_modulo_consulta` (lines 158-176): wait for and click
`sel["menu_cadastro"]`, then `sel["menu_proposta"]`. -/
def navegar_para_modulo_consulta (sel : Selectors) (nb : NavBehavior) :
    Except Exc Unit := do
  let _ ← selIndex sel "menu_cadastro"
  let _ ← raiseIf nb.waitMenuCadastro
  let _ ← raiseIf nb.clickCadastro
  let _ ← selIndex sel "menu_proposta"
  let _ ← raiseIf nb.waitMenuProposta
  raiseIf nb.clickProposta

/-- Everything external that `executar_extracao` consults: whether the
driver launches, the login and navigation interactions, the outcome of
reading the input spreadsheet, and the portal's behaviour for the record
processed at each loop index. -/
structure Env where
  driverStart : Option Exc
  loginB : LoginBehavior
  navB : NavBehavior
  entrada : Except Exc (List Row)
  recordB : Nat → PortalRecordBehavior

/-- Observable outcome of one call to `executar_extracao`: the final file
system, the exception escaping the call (if any), how many times
`driver.quit()` ran in the `finally` block, the loop traces, the rows
written to the consolidated Excel artifact (`none` when no file is
written), and whether the empty-result warning was logged. -/
structure ExecOutcome where
  fs : FileSystem
  err : Option Exc
  quitCalls : Nat
  resultados : List Resultado
  streamLines : List String
  progress : List (Nat × Nat)
  skipped : List Nat
  artifact : Option (List Resultado)
  emptyWarning : Bool

/-- `executar_extracao` (lines 277-356).  `cfgSel` is the outcome of
`carregar_selectors` (raises before the streaming file is created).  Then:
initialize the streaming file; inside `try`, launch the driver, log in,
navigate, load the input, run the batch loop, and either write the
consolidated artifact (non-empty `resultados`) or log a warning;
`finally`, call `driver.quit()` exactly when the driver was assigned. -/
def executar_extracao (cfgSel : Except Exc Selectors) (streamingPath : String)
    (env : Env) (fs0 : FileSystem) : ExecOutcome :=
  match cfgSel with
  | Except.error e =>
      { fs := fs0, err := some e, quitCalls := 0, resultados := [], streamLines := [],
        progress := [], skipped := [], artifact := none, emptyWarning := false }
  | Except.ok selectors =>
    let fs1 := inicializar_streaming fs0 streamingPath
    match env.driverStart with
    | some e =>
        { fs := fs1, err := some e, quitCalls := 0, resultados := [], streamLines := [],
          progress := [], skipped := [], artifact := none, emptyWarning := false }
    | none =>
      match login selectors env.loginB with
      | Except.error e =>
          { fs := fs1, err := some e, quitCalls := 1, resultados := [], streamLines := [],
            progress := [], skipped := [], artifact := none, emptyWarning := false }
      | Except.ok _ =>
        match navegar_para_modulo_consulta selectors env.navB with
        | Except.error e =>
            { fs := fs1, err := some e, quitCalls := 1, resultados := [],
              streamLines := [], progress := [], skipped := [], artifact := none,
              emptyWarning := false }
        | Except.ok _ =>
          match env.entrada with
          | Except.error e =>
              { fs := fs1, err := some e, quitCalls := 1, resultados := [],
                streamLines := [], progress := [], skipped := [], artifact := none,
                emptyWarning := false }
          | Except.ok registros =>
            let st := runLoop selectors env.recordB streamingPath registros fs1
            if st.resultados.isEmpty then
              { fs := st.fs, err := none, quitCalls := 1, resultados := st.resultados,
                streamLines := st.streamLines, progress := st.progress,
                skipped := st.skipped, artifact := none, emptyWarning := true }
            else
              { fs := st.fs, err := none, quitCalls := 1, resultados := st.resultados,
                streamLines := st.streamLines, progress := st.progress,
                skipped := st.skipped, artifact := some st.resultados,
                emptyWarning := false }

/-- The process exit status set by `main` (lines 410-421): 1 when
`executar_extracao` raised, 0 otherwise. -/
def exitCode (out : ExecOutcome) : Nat := if out.err.isSome then 1 else 0

/-! ### Concrete fixtures used by witnesses and counterexamples -/

/-- A selector map providing every logical name the source references. -/
def selFull : Selectors :=
  [("campo_usuario", "txtUser"), ("campo_senha", "txtPass"),
   ("botao_entrar", "btnLogin"), ("menu_cadastro", "mnuCad"),
   ("menu_proposta", "mnuProp"), ("campo_cpf", "txtCpf"),
   ("botao_consultar", "btnGo"), ("grid_resultados", "grdRes")]

/-- The same map without the per-record key `campo_cpf`. -/
def selSemCampoCpf : Selectors :=
  [("campo_usuario", "txtUser"), ("campo_senha", "txtPass"),
   ("botao_entrar", "btnLogin"), ("menu_cadastro", "mnuCad"),
   ("menu_proposta", "mnuProp"), ("botao_consultar", "btnGo"),
   ("grid_resultados", "grdRes")]

/-- The same map without the login key `campo_usuario`. -/
def selSemCampoUsuario : Selectors :=
  [("campo_senha", "txtPass"), ("botao_entrar", "btnLogin"),
   ("menu_cadastro", "mnuCad"), ("menu_proposta", "mnuProp"),
   ("campo_cpf", "txtCpf"), ("botao_consultar", "btnGo"),
   ("grid_resultados", "grdRes")]

/-- A portal that answers every interaction successfully. -/
def pbOk : PortalRecordBehavior :=
  { waitCampoCpf := none, fillCpf := none, findBotao := none, click := none,
    blur := none, waitGrid := none }

/-- A portal whose results grid never appears: the bounded wait at
lines 256-258 times out. -/
def pbGridTimeout : PortalRecordBehavior :=
  { waitCampoCpf := none, fillCpf := none, findBotao := none, click := none,
    blur := none, waitGrid := some Exc.timeout }

/-- Login interactions that all succeed. -/
def lbOk : LoginBehavior :=
  { navGet := none, waitUser := none, findSenha := none, findEntrar := none,
    fill := none, submit := none, waitMarker := none }

/-- Navigation interactions that all succeed. -/
def nbOk : NavBehavior :=
  { waitMenuCadastro := none, clickCadastro := none, waitMenuProposta := none,
    clickProposta := none }

/-- An environment in which everything external succeeds and the input
spreadsheet yields `rows`. -/
def envOk (rows : List Row) : Env :=
  { driverStart := none, loginB := lbOk, navB := nbOk,
    entrada := Except.ok rows, recordB := fun _ => pbOk }

/-- An empty file system. -/
def fsEmpty : FileSystem := fun _ => []

/-- The spec's scenario batch: identifiers `111`, ` ` (empty after
trimming is modelled by the empty string), `222`. -/
def rows5 : List Row := [⟨some "111"⟩, ⟨some ""⟩, ⟨some "222"⟩]

/-! ### Basic reduction lemmas -/

@[simp]
lemma exc_bind_ok {α β : Type} (a : α) (f : α → Except Exc β) :
    (Except.ok a >>= f) = f a := rfl

@[simp]
lemma exc_bind_error {α β : Type} (e : Exc) (f : α → Except Exc β) :
    ((Except.error e : Except Exc α) >>= f) = Except.error e := rfl

@[simp]
lemma raiseIf_none : raiseIf none = Except.ok () := rfl

@[simp]
lemma raiseIf_some (e : Exc) : raiseIf (some e) = Except.error e := rfl

@[simp]
lemma selIndex_eq_ok (sel : Selectors) (key v : String)
    (h : selLookup sel key = some v) : selIndex sel key = Except.ok v := by
  simp [selIndex, h]

@[simp]
lemma selIndex_eq_error (sel : Selectors) (key : String)
    (h : selLookup sel key = none) :
    selIndex sel key = Except.error (Exc.keyError key) := by
  simp [selIndex, h]

/-! ### Characterization of the batch loop -/

/-- Appending a list of chunks one at a time. -/
def fsAppendList (fs : FileSystem) (path : String) : List String → FileSystem
  | [] => fs
  | l :: ls => fsAppendList (fsAppend fs path l) path ls

lemma fsAppendList_at (path : String) :
    ∀ (lines : List String) (fs : FileSystem),
    fsAppendList fs path lines path = fs path ++ lines := by
  intro lines
  induction lines with
  | nil => intro fs; simp [fsAppendList]
  | cons l ls ih => intro fs; simp [fsAppendList, ih, fsAppend]

lemma runLoopAux_resultados (sel : Selectors) (rb : Nat → PortalRecordBehavior)
    (path : String) (total : Nat) :
    ∀ (rows : List Row) (idx : Nat) (st : LoopState),
    (runLoopAux sel rb path total idx rows st).resultados
      = st.resultados ++ (processedSeq sel rb idx rows).map (fun p => p.2.dados) := by
  intro rows
  induction rows with
  | nil => intro idx st; simp [runLoopAux, processedSeq]
  | cons r rs ih =>
      intro idx st
      by_cases h : rowCpf r = ""
      · simp [runLoopAux, processedSeq, h, ih]
      · simp [runLoopAux, processedSeq, h, ih]

lemma runLoopAux_streamLines (sel : Selectors) (rb : Nat → PortalRecordBehavior)
    (path : String) (total : Nat) :
    ∀ (rows : List Row) (idx : Nat) (st : LoopState),
    (runLoopAux sel rb path total idx rows st).streamLines
      = st.streamLines ++ (processedSeq sel rb idx rows).map lineOf := by
  intro rows
  induction rows with
  | nil => intro idx st; simp [runLoopAux, processedSeq]
  | cons r rs ih =>
      intro idx st
      by_cases h : rowCpf r = ""
      · simp [runLoopAux, processedSeq, h, ih]
      · simp [runLoopAux, processedSeq, h, ih, lineOf]

lemma runLoopAux_progress (sel : Selectors) (rb : Nat → PortalRecordBehavior)
    (path : String) (total : Nat) :
    ∀ (rows : List Row) (idx : Nat) (st : LoopState),
    (runLoopAux sel rb path total idx rows st).progress
      = st.progress ++ progressSeq total idx rows := by
  intro rows
  induction rows with
  | nil => intro idx st; simp [runLoopAux, progressSeq]
  | cons r rs ih =>
      intro idx st
      by_cases h : rowCpf r = ""
      · simp [runLoopAux, progressSeq, h, ih]
      · simp [runLoopAux, progressSeq, h, ih]

lemma runLoopAux_skipped (sel : Selectors) (rb : Nat → PortalRecordBehavior)
    (path : String) (total : Nat) :
    ∀ (rows : List Row) (idx : Nat) (st : LoopState),
    (runLoopAux sel rb path total idx rows st).skipped
      = st.skipped ++ skippedSeq idx rows := by
  intro rows
  induction rows with
  | nil => intro idx st; simp [runLoopAux, skippedSeq]
  | cons r rs ih =>
      intro idx st
      by_cases h : rowCpf r = ""
      · simp [runLoopAux, skippedSeq, h, ih]
      · simp [runLoopAux, skippedSeq, h, ih]

lemma runLoopAux_fs (sel : Selectors) (rb : Nat → PortalRecordBehavior)
    (path : String) (total : Nat) :
    ∀ (rows : List Row) (idx : Nat) (st : LoopState),
    (runLoopAux sel rb path total idx rows st).fs
      = fsAppendList st.fs path ((processedSeq sel rb idx rows).map lineOf) := by
  intro rows
  induction rows with
  | nil => intro idx st; simp [runLoopAux, processedSeq, fsAppendList]
  | cons r rs ih =>
      intro idx st
      by_cases h : rowCpf r = ""
      · simp [runLoopAux, processedSeq, h, ih, fsAppendList]
      · simp [runLoopAux, processedSeq, h, ih, fsAppendList, append_streaming, lineOf]

lemma processedSeq_fst (sel : Selectors) (rb : Nat → PortalRecordBehavior) :
    ∀ (rows : List Row) (idx : Nat),
    (processedSeq sel rb idx rows).map (fun p => p.1) = validCpfs rows := by
  intro rows
  induction rows with
  | nil => intro idx; simp [processedSeq, validCpfs]
  | cons r rs ih =>
      intro idx
      by_cases h : rowCpf r = ""
      · simp [processedSeq, validCpfs, h, ih]
      · simp [processedSeq, validCpfs, h, ih]

lemma processedSeq_length (sel : Selectors) (rb : Nat → PortalRecordBehavior)
    (rows : List Row) (idx : Nat) :
    (processedSeq sel rb idx rows).length = (validCpfs rows).length := by
  have h := processedSeq_fst sel rb rows idx
  calc (processedSeq sel rb idx rows).length
      = ((processedSeq sel rb idx rows).map (fun p => p.1)).length := by simp
    _ = (validCpfs rows).length := by rw [h]

lemma validCpfs_length_add_skipped :
    ∀ (rows : List Row) (idx : Nat),
    (validCpfs rows).length + (skippedSeq idx rows).length = rows.length := by
  intro rows
  induction rows with
  | nil => intro idx; simp [validCpfs, skippedSeq]
  | cons r rs ih =>
      intro idx
      have hrec := ih (idx + 1)
      by_cases h : rowCpf r = ""
      · simp [validCpfs, skippedSeq, h]
        omega
      · simp [validCpfs, skippedSeq, h]
        omega

lemma progressSeq_total (total : Nat) :
    ∀ (rows : List Row) (idx : Nat) (e : Nat × Nat),
    e ∈ progressSeq total idx rows → e.2 = total ∧ rows ≠ [] := by
  intro rows
  induction rows with
  | nil => intro idx e he; simp [progressSeq] at he
  | cons r rs ih =>
      intro idx e he
      refine ⟨?_, by simp⟩
      by_cases h : rowCpf r = ""
      · simp only [progressSeq, h, if_pos] at he
        exact (ih _ e he).1
      · simp only [progressSeq, h, if_neg, List.mem_cons, not_false_iff] at he
        rcases he with rfl | he
        · rfl
        · exact (ih _ e he).1

/-! ### Facts about the guarded per-record step -/

/-- The only success value `extrair_dados_para_cpf` can produce is the
fixed placeholder dictionary for the requested identifier. -/
lemma extrair_ok_eq (sel : Selectors) (cpf : String) (pb : PortalRecordBehavior)
    (d : Resultado) (h : extrair_dados_para_cpf sel cpf pb = Except.ok d) :
    d = { cpf := cpf, status := "ok", parcelasPagas := some 12, saldo := some 1235 } := by
  unfold extrair_dados_para_cpf at h
  rcases hc : selLookup sel "campo_cpf" with _ | v <;>
  rcases hg : selLookup sel "grid_resultados" with _ | w <;>
  rcases h2 : pb.waitCampoCpf with _ | e2 <;>
  rcases h3 : pb.fillCpf with _ | e3 <;>
  rcases h7 : pb.waitGrid with _ | e7 <;>
  cases hb : selContains sel "botao_consultar" <;>
  rcases h4 : pb.findBotao with _ | e4 <;>
  rcases h5 : pb.click with _ | e5 <;>
  rcases h6 : pb.blur with _ | e6 <;>
  simp_all [selIndex, raiseIf]

/-- The retained dictionary always carries the requested identifier, and
its `Status` field coincides with the `status` written to the stream. -/
lemma processRecordStep_spec (sel : Selectors) (cpf : String)
    (pb : PortalRecordBehavior) :
    (processRecordStep sel cpf pb).dados.cpf = cpf ∧
    (processRecordStep sel cpf pb).dados.status = (processRecordStep sel cpf pb).status := by
  unfold processRecordStep
  cases h : extrair_dados_para_cpf sel cpf pb with
  | ok d =>
      have hd := extrair_ok_eq sel cpf pb d h
      subst hd
      exact ⟨rfl, rfl⟩
  | error e => exact ⟨rfl, rfl⟩

/-- Every processed entry of a batch satisfies `processRecordStep_spec`. -/
lemma processedSeq_mem (sel : Selectors) (rb : Nat → PortalRecordBehavior) :
    ∀ (rows : List Row) (idx : Nat) (p : String × RecordStep),
    p ∈ processedSeq sel rb idx rows →
    p.2.dados.cpf = p.1 ∧ p.2.dados.status = p.2.status := by
  intro rows
  induction rows with
  | nil => intro idx p hp; simp [processedSeq] at hp
  | cons r rs ih =>
      intro idx p hp
      by_cases h : rowCpf r = ""
      · exact ih (idx + 1) p (by simpa [processedSeq, h] using hp)
      · simp only [processedSeq, h, if_neg, not_false_iff, List.mem_cons] at hp
        rcases hp with rfl | hp
        · exact processRecordStep_spec sel (rowCpf r) (rb idx)
        · exact ih (idx + 1) p hp

/-- Zipping two projections of the same list recovers a map, provided the
combination agrees pointwise on the list's members. -/
lemma zipWith_map_eq {α β γ δ : Type} (f : β → γ → δ) (g : α → β) (k : α → γ)
    (F : α → δ) :
    ∀ (l : List α), (∀ p ∈ l, f (g p) (k p) = F p) →
    List.zipWith f (l.map g) (l.map k) = l.map F := by
  intro l
  induction l with
  | nil => intro _; rfl
  | cons a as ih =>
      intro hmem
      simp only [List.map_cons, List.zipWith_cons_cons, hmem a (List.mem_cons_self a as),
        List.cons.injEq, true_and]
      exact ih (fun p hp => hmem p (List.mem_cons_of_mem a hp))

/-! ### Decomposition of successful Except chains -/

instance {α β : Type} [DecidableEq α] [DecidableEq β] :
    DecidableEq (Except α β) := fun x y =>
  match x, y with
  | Except.ok a, Except.ok b =>
      if h : a = b then isTrue (by rw [h])
      else isFalse (fun hc => h (Except.ok.inj hc))
  | Except.error a, Except.error b =>
      if h : a = b then isTrue (by rw [h])
      else isFalse (fun hc => h (Except.error.inj hc))
  | Except.ok _, Except.error _ => isFalse (fun hc => Except.noConfusion hc)
  | Except.error _, Except.ok _ => isFalse (fun hc => Except.noConfusion hc)

lemma bind_eq_ok {α β : Type} {c : Except Exc α} {f : α → Except Exc β} {b : β}
    (h : (c >>= f) = Except.ok b) : ∃ a, c = Except.ok a ∧ f a = Except.ok b := by
  cases c with
  | ok a => exact ⟨a, rfl, h⟩
  | error e =>
      rw [exc_bind_error] at h
      exact Except.noConfusion h

lemma selIndex_ok_isSome {sel : Selectors} {k v : String}
    (h : selIndex sel k = Except.ok v) : (selLookup sel k).isSome := by
  cases hk : selLookup sel k with
  | some w => rfl
  | none =>
      rw [selIndex_eq_error sel k hk] at h
      exact Except.noConfusion h

/-- A successful `login` dereferenced all four of its selector keys. -/
lemma login_ok_keys (sel : Selectors) (lb : LoginBehavior) (u : Unit)
    (hl : login sel lb = Except.ok u) :
    (selLookup sel "campo_usuario").isSome ∧ (selLookup sel "campo_senha").isSome ∧
    (selLookup sel "botao_entrar").isSome ∧ (selLookup sel "menu_cadastro").isSome := by
  unfold login at hl
  obtain ⟨_, _, hl⟩ := bind_eq_ok hl
  obtain ⟨v1, hc1, hl⟩ := bind_eq_ok hl
  obtain ⟨_, _, hl⟩ := bind_eq_ok hl
  obtain ⟨v2, hc2, hl⟩ := bind_eq_ok hl
  obtain ⟨_, _, hl⟩ := bind_eq_ok hl
  obtain ⟨v3, hc3, hl⟩ := bind_eq_ok hl
  obtain ⟨_, _, hl⟩ := bind_eq_ok hl
  obtain ⟨_, _, hl⟩ := bind_eq_ok hl
  obtain ⟨_, _, hl⟩ := bind_eq_ok hl
  obtain ⟨v4, hc4, hl⟩ := bind_eq_ok hl
  exact ⟨selIndex_ok_isSome hc1, selIndex_ok_isSome hc2,
    selIndex_ok_isSome hc3, selIndex_ok_isSome hc4⟩

/-- Successful navigation dereferenced both menu keys. -/
lemma navegar_ok_keys (sel : Selectors) (nb : NavBehavior) (u : Unit)
    (hn : navegar_para_modulo_consulta sel nb = Except.ok u) :
    (selLookup sel "menu_cadastro").isSome ∧ (selLookup sel "menu_proposta").isSome := by
  unfold navegar_para_modulo_consulta at hn
  obtain ⟨v1, hc1, hn⟩ := bind_eq_ok hn
  obtain ⟨_, _, hn⟩ := bind_eq_ok hn
  obtain ⟨_, _, hn⟩ := bind_eq_ok hn
  obtain ⟨v2, hc2, hn⟩ := bind_eq_ok hn
  exact ⟨selIndex_ok_isSome hc1, selIndex_ok_isSome hc2⟩

/-- Reduction of `executar_extracao` along the successful establishment
path (driver launched, login and navigation completed, input loaded). -/
lemma executar_ok_run (sel : Selectors) (path : String) (env : Env)
    (fs : FileSystem) (rows : List Row)
    (hd : env.driverStart = none)
    (hl : login sel env.loginB = Except.ok ())
    (hn : navegar_para_modulo_consulta sel env.navB = Except.ok ())
    (he : env.entrada = Except.ok rows) :
    executar_extracao (Except.ok sel) path env fs =
      (if (runLoop sel env.recordB path rows (inicializar_streaming fs path)).resultados.isEmpty
       then
        { fs := (runLoop sel env.recordB path rows (inicializar_streaming fs path)).fs,
          err := none, quitCalls := 1,
          resultados := (runLoop sel env.recordB path rows (inicializar_streaming fs path)).resultados,
          streamLines := (runLoop sel env.recordB path rows (inicializar_streaming fs path)).streamLines,
          progress := (runLoop sel env.recordB path rows (inicializar_streaming fs path)).progress,
          skipped := (runLoop sel env.recordB path rows (inicializar_streaming fs path)).skipped,
          artifact := none, emptyWarning := true }
       else
        { fs := (runLoop sel env.recordB path rows (inicializar_streaming fs path)).fs,
          err := none, quitCalls := 1,
          resultados := (runLoop sel env.recordB path rows (inicializar_streaming fs path)).resultados,
          streamLines := (runLoop sel env.recordB path rows (inicializar_streaming fs path)).streamLines,
          progress := (runLoop sel env.recordB path rows (inicializar_streaming fs path)).progress,
          skipped := (runLoop sel env.recordB path rows (inicializar_streaming fs path)).skipped,
          artifact := some (runLoop sel env.recordB path rows (inicializar_streaming fs path)).resultados,
          emptyWarning := false }) := by
  unfold executar_extracao
  dsimp only
  rw [hd, hl, hn, he]

/-! ### The claims -/

/-- C1: for every selector map and environment (that is, whatever
exceptions the portal raises at whatever step of the per-record protocol),
the batch loop reaches the end of the record list — every input record is
either processed or skipped — and any exception raised by the per-record
protocol is converted into an `erro`-status step rather than propagated:
`processRecordStep`, the try/except of lines 317-330, is a total
function. -/
theorem c1_per_record_failures_never_abort_batch
    (sel : Selectors) (rb : Nat → PortalRecordBehavior) (path : String)
    (rows : List Row) (fs : FileSystem) (cpf : String) (pb : PortalRecordBehavior) :
    ((runLoop sel rb path rows fs).resultados.length
        + (runLoop sel rb path rows fs).skipped.length = rows.length) ∧
    (∀ e, extrair_dados_para_cpf sel cpf pb = Except.error e →
      (processRecordStep sel cpf pb).status = "erro" ∧
      (processRecordStep sel cpf pb).mensagem = "erro: " ++ e.name) := by
  constructor
  · unfold runLoop
    rw [runLoopAux_resultados, runLoopAux_skipped]
    simp only [List.nil_append, List.length_map, processedSeq_length]
    exact validCpfs_length_add_skipped rows 1
  · intro e he
    unfold processRecordStep
    rw [he]
    exact ⟨rfl, rfl⟩

/-- A portal whose identifier-field wait times out at once. -/
def pbCampoTimeout : PortalRecordBehavior :=
  { waitCampoCpf := some Exc.timeout, fillCpf := none, findBotao := none,
    click := none, blur := none, waitGrid := none }

/-- Witness for C1 at the scenario batch and at a timed-out record. -/
theorem c1_witness :
    ((runLoop selFull (fun _ => pbOk) "stream.txt" rows5 fsEmpty).resultados.length
        + (runLoop selFull (fun _ => pbOk) "stream.txt" rows5 fsEmpty).skipped.length
        = rows5.length) ∧
    ((processRecordStep selFull "111" pbCampoTimeout).status = "erro" ∧
      (processRecordStep selFull "111" pbCampoTimeout).mensagem
        = "erro: " ++ Exc.timeout.name) :=
  ⟨(c1_per_record_failures_never_abort_batch selFull (fun _ => pbOk) "stream.txt"
      rows5 fsEmpty "111" pbCampoTimeout).1,
   (c1_per_record_failures_never_abort_batch selFull (fun _ => pbOk) "stream.txt"
      rows5 fsEmpty "111" pbCampoTimeout).2 Exc.timeout (by decide)⟩

/-- C2: after the batch loop, the streaming file holds exactly one data
line per input record with a non-empty trimmed identifier, appended after
whatever was already at the path, and the lines carry the valid
identifiers in input order. -/
theorem c2_stream_lines_count_and_order
    (sel : Selectors) (rb : Nat → PortalRecordBehavior) (path : String)
    (rows : List Row) (fs : FileSystem) :
    ((runLoop sel rb path rows fs).streamLines.length = (validCpfs rows).length) ∧
    ((runLoop sel rb path rows fs).fs path
        = fs path ++ (runLoop sel rb path rows fs).streamLines) ∧
    (∃ tails : List String,
      tails.length = (validCpfs rows).length ∧
      (runLoop sel rb path rows fs).streamLines
        = List.zipWith (fun cpf tail => cpf ++ ";" ++ tail) (validCpfs rows) tails) := by
  have hs : (runLoop sel rb path rows fs).streamLines
      = (processedSeq sel rb 1 rows).map lineOf := by
    unfold runLoop
    rw [runLoopAux_streamLines]
    simp
  refine ⟨?_, ?_, ?_⟩
  · rw [hs]
    simp [processedSeq_length]
  · unfold runLoop
    rw [runLoopAux_fs, fsAppendList_at]
    unfold runLoop at hs
    rw [hs]
  · refine ⟨(processedSeq sel rb 1 rows).map
      (fun p => p.2.status ++ ";" ++ p.2.mensagem ++ "\n"), ?_, ?_⟩
    · simp [processedSeq_length]
    · rw [hs, ← processedSeq_fst sel rb rows 1]
      refine (zipWith_map_eq (fun cpf tail => cpf ++ ";" ++ tail)
        (fun p => p.1) (fun p => p.2.status ++ ";" ++ p.2.mensagem ++ "\n")
        lineOf (processedSeq sel rb 1 rows) ?_).symm
      intro p hp
      simp [lineOf, String.append_assoc]

/-- C7: whenever the per-record protocol raises, the retained dictionary
is exactly the error dictionary — identifier kept, status `erro`, both
payload fields null — and the streamed message carries the exception's
class name; conversely the step's status is `erro` exactly when the
protocol raised. -/
theorem c7_error_status_iff_exception (sel : Selectors) (cpf : String)
    (pb : PortalRecordBehavior) :
    (∀ e, extrair_dados_para_cpf sel cpf pb = Except.error e →
      (processRecordStep sel cpf pb).dados
          = { cpf := cpf, status := "erro", parcelasPagas := none, saldo := none } ∧
      (processRecordStep sel cpf pb).mensagem = "erro: " ++ e.name) ∧
    ((processRecordStep sel cpf pb).status = "erro"
      ↔ ∃ e, extrair_dados_para_cpf sel cpf pb = Except.error e) := by
  constructor
  · intro e he
    unfold processRecordStep
    rw [he]
    exact ⟨rfl, rfl⟩
  · constructor
    · intro hs
      cases h : extrair_dados_para_cpf sel cpf pb with
      | ok d =>
          have hd := extrair_ok_eq sel cpf pb d h
          unfold processRecordStep at hs
          rw [h, hd] at hs
          simp at hs
      | error e => exact ⟨e, rfl⟩
    · rintro ⟨e, he⟩
      unfold processRecordStep
      rw [he]

/-- Witness for C7: the grid wait times out for identifier 333. -/
theorem c7_witness :
    (processRecordStep selFull "333" pbGridTimeout).dados
        = { cpf := "333", status := "erro", parcelasPagas := none, saldo := none } ∧
    (processRecordStep selFull "333" pbGridTimeout).mensagem
        = "erro: " ++ Exc.timeout.name :=
  (c7_error_status_iff_exception selFull "333" pbGridTimeout).1 Exc.timeout (by decide)

/-- C8: `inicializar_streaming` truncates, so running it twice on a path
equals running it once, and the file then holds exactly the header. -/
theorem c8_inicializar_streaming_idempotent (fs : FileSystem) (path : String) :
    inicializar_streaming (inicializar_streaming fs path) path
        = inicializar_streaming fs path ∧
    inicializar_streaming (inicializar_streaming fs path) path path
        = ["cpf;status;mensagem\n"] := by
  constructor
  · funext q
    by_cases h : q = path <;> simp [inicializar_streaming, fsWrite, h]
  · simp [inicializar_streaming, fsWrite]

/-- C10: every `(idx, total)` pair the progress report divides by has
`total = len(registros)`, and a report only happens inside the loop body,
so the record list is non-empty and `total` is at least 1: the percentage
`idx / total * 100` never divides by zero. -/
theorem c10_progress_total_positive
    (sel : Selectors) (rb : Nat → PortalRecordBehavior) (path : String)
    (rows : List Row) (fs : FileSystem) (e : Nat × Nat)
    (he : e ∈ (runLoop sel rb path rows fs).progress) :
    0 < e.2 ∧ e.2 = rows.length := by
  unfold runLoop at he
  rw [runLoopAux_progress] at he
  simp only [List.nil_append] at he
  have h := progressSeq_total rows.length rows 1 e he
  refine ⟨?_, h.1⟩
  rw [h.1]
  exact List.length_pos.mpr h.2

/-- Witness for C10 at the scenario batch. -/
theorem c10_witness :
    0 < ((1, 3) : Nat × Nat).2 ∧ ((1, 3) : Nat × Nat).2 = rows5.length :=
  c10_progress_total_positive selFull (fun _ => pbOk) "stream.txt" rows5 fsEmpty
    (1, 3) (by decide)

/-- C3: in a batch where session establishment succeeds and at least one
record has a valid identifier, the consolidated artifact is written and
holds exactly the retained `resultados`; its row count equals the stream
log's data-line count, and line `i` of the stream carries the identifier
and status of row `i` of the artifact — the two sequences are in the same
order. -/
theorem c3_artifact_matches_stream_log
    (sel : Selectors) (path : String) (env : Env) (fs : FileSystem) (rows : List Row)
    (hd : env.driverStart = none)
    (hl : login sel env.loginB = Except.ok ())
    (hn : navegar_para_modulo_consulta sel env.navB = Except.ok ())
    (he : env.entrada = Except.ok rows)
    (hv : validCpfs rows ≠ []) :
    (executar_extracao (Except.ok sel) path env fs).artifact
        = some (executar_extracao (Except.ok sel) path env fs).resultados ∧
    (executar_extracao (Except.ok sel) path env fs).streamLines.length
        = (executar_extracao (Except.ok sel) path env fs).resultados.length ∧
    (∃ msgs : List String,
      msgs.length = (executar_extracao (Except.ok sel) path env fs).resultados.length ∧
      (executar_extracao (Except.ok sel) path env fs).streamLines
        = List.zipWith
            (fun (r : Resultado) (m : String) => r.cpf ++ ";" ++ r.status ++ ";" ++ m ++ "\n")
            (executar_extracao (Except.ok sel) path env fs).resultados msgs) := by
  rw [executar_ok_run sel path env fs rows hd hl hn he]
  have hres : (runLoop sel env.recordB path rows (inicializar_streaming fs path)).resultados
      = (processedSeq sel env.recordB 1 rows).map (fun p => p.2.dados) := by
    unfold runLoop
    rw [runLoopAux_resultados]
    simp
  have hstream : (runLoop sel env.recordB path rows (inicializar_streaming fs path)).streamLines
      = (processedSeq sel env.recordB 1 rows).map lineOf := by
    unfold runLoop
    rw [runLoopAux_streamLines]
    simp
  have hlen : (processedSeq sel env.recordB 1 rows).length = (validCpfs rows).length :=
    processedSeq_length sel env.recordB rows 1
  have hne : (runLoop sel env.recordB path rows (inicializar_streaming fs path)).resultados.isEmpty
      = false := by
    rw [hres, List.isEmpty_eq_false_iff_exists_mem]
    have : 0 < (processedSeq sel env.recordB 1 rows).length := by
      rw [hlen]
      exact List.length_pos.mpr hv
    rcases List.exists_mem_of_length_pos this with ⟨p, hp⟩
    exact ⟨p.2.dados, List.mem_map_of_mem _ hp⟩
  rw [hne]
  simp only [if_false, Bool.false_eq_true]
  refine ⟨by trivial, ?_, ?_⟩
  · rw [hres, hstream]
    simp
  · refine ⟨(processedSeq sel env.recordB 1 rows).map (fun p => p.2.mensagem), ?_, ?_⟩
    · rw [hres]
      simp
    · rw [hres, hstream]
      refine (zipWith_map_eq
        (fun (r : Resultado) (m : String) => r.cpf ++ ";" ++ r.status ++ ";" ++ m ++ "\n")
        (fun p => p.2.dados) (fun p => p.2.mensagem) lineOf
        (processedSeq sel env.recordB 1 rows) ?_).symm
      intro p hp
      have hm := processedSeq_mem sel env.recordB rows 1 p hp
      dsimp only
      rw [lineOf, hm.1, hm.2]

/-- Witness for C3 at the scenario batch with an all-success portal. -/
theorem c3_witness :
    (executar_extracao (Except.ok selFull) "stream.txt" (envOk rows5) fsEmpty).artifact
        = some (executar_extracao (Except.ok selFull) "stream.txt" (envOk rows5) fsEmpty).resultados ∧
    (executar_extracao (Except.ok selFull) "stream.txt" (envOk rows5) fsEmpty).streamLines.length
        = (executar_extracao (Except.ok selFull) "stream.txt" (envOk rows5) fsEmpty).resultados.length ∧
    (∃ msgs : List String,
      msgs.length
        = (executar_extracao (Except.ok selFull) "stream.txt" (envOk rows5) fsEmpty).resultados.length ∧
      (executar_extracao (Except.ok selFull) "stream.txt" (envOk rows5) fsEmpty).streamLines
        = List.zipWith
            (fun (r : Resultado) (m : String) => r.cpf ++ ";" ++ r.status ++ ";" ++ m ++ "\n")
            (executar_extracao (Except.ok selFull) "stream.txt" (envOk rows5) fsEmpty).resultados
            msgs) :=
  c3_artifact_matches_stream_log selFull "stream.txt" (envOk rows5) fsEmpty rows5
    rfl (by decide) (by decide) rfl (by decide)

/-- C6: when the selector file loads, the `finally` block calls
`driver.quit()` exactly once whenever `iniciar_driver` succeeded — no
matter how login, navigation, input loading or record processing turn
out — and zero times when the driver never started; when even the
selector file fails to load, the `try` block is never entered and no
teardown happens. -/
theorem c6_teardown_exactly_once_per_started_session
    (sel : Selectors) (e : Exc) (path : String) (env : Env) (fs : FileSystem) :
    ((executar_extracao (Except.ok sel) path env fs).quitCalls
        = if env.driverStart = none then 1 else 0) ∧
    (executar_extracao (Except.error e) path env fs).quitCalls = 0 := by
  constructor
  · unfold executar_extracao
    dsimp only
    cases hd : env.driverStart with
    | some e2 => simp
    | none =>
        simp only [reduceIte]
        cases hl : login sel env.loginB with
        | error e2 => simp
        | ok u =>
          cases hn : navegar_para_modulo_consulta sel env.navB with
          | error e2 => simp
          | ok v =>
            cases he : env.entrada with
            | error e2 => simp
            | ok rows =>
              by_cases hr : (runLoop sel env.recordB path rows
                  (inicializar_streaming fs path)).resultados.isEmpty <;>
                simp [hr]
  · rfl

/-- C9: when the session is established but the batch contains no valid
identifier, no consolidated artifact is produced, the empty-result warning
is logged, no exception escapes, and the process exit status is 0. -/
theorem c9_zero_valid_records_warns_and_exits_zero
    (sel : Selectors) (path : String) (env : Env) (fs : FileSystem) (rows : List Row)
    (hd : env.driverStart = none)
    (hl : login sel env.loginB = Except.ok ())
    (hn : navegar_para_modulo_consulta sel env.navB = Except.ok ())
    (he : env.entrada = Except.ok rows)
    (hv : validCpfs rows = []) :
    (executar_extracao (Except.ok sel) path env fs).artifact = none ∧
    (executar_extracao (Except.ok sel) path env fs).emptyWarning = true ∧
    (executar_extracao (Except.ok sel) path env fs).err = none ∧
    exitCode (executar_extracao (Except.ok sel) path env fs) = 0 := by
  rw [executar_ok_run sel path env fs rows hd hl hn he]
  have hres : (runLoop sel env.recordB path rows (inicializar_streaming fs path)).resultados
      = (processedSeq sel env.recordB 1 rows).map (fun p => p.2.dados) := by
    unfold runLoop
    rw [runLoopAux_resultados]
    simp
  have hemp : (runLoop sel env.recordB path rows
      (inicializar_streaming fs path)).resultados.isEmpty = true := by
    rw [hres, List.isEmpty_iff_length_eq_zero]
    rw [List.length_map, processedSeq_length, hv]
    rfl
  rw [hemp]
  simp [exitCode]

/-- A batch whose only row has a whitespace-only identifier. -/
def rowsSoBranco : List Row := [⟨some "   "⟩]

/-- Witness for C9: a one-row batch whose identifier trims to empty. -/
theorem c9_witness :
    (executar_extracao (Except.ok selFull) "stream.txt" (envOk rowsSoBranco) fsEmpty).artifact
        = none ∧
    (executar_extracao (Except.ok selFull) "stream.txt" (envOk rowsSoBranco) fsEmpty).emptyWarning
        = true ∧
    (executar_extracao (Except.ok selFull) "stream.txt" (envOk rowsSoBranco) fsEmpty).err = none ∧
    exitCode (executar_extracao (Except.ok selFull) "stream.txt" (envOk rowsSoBranco) fsEmpty)
        = 0 :=
  c9_zero_valid_records_warns_and_exits_zero selFull "stream.txt" (envOk rowsSoBranco)
    fsEmpty rowsSoBranco rfl (by decide) (by decide) rfl (by decide)

/-- The selector keys dereferenced during session establishment and
navigation (lines 137-153 and 165-171), before the record loop begins. -/
def sessionKeys : List String :=
  ["campo_usuario", "campo_senha", "botao_entrar", "menu_cadastro", "menu_proposta"]

/-- True when some session-establishment key is absent from the map. -/
def sessionKeyMissing (sel : Selectors) : Bool :=
  sessionKeys.any (fun k => (selLookup sel k).isNone)

/-- C4 counterexample: `campo_cpf` is a required key (it is dereferenced
by the per-record protocol), yet with it absent the batch does NOT fail
before any record is processed: the `KeyError` is swallowed by the
per-record try/except, the single record is processed with status `erro`,
a data line is appended to the stream log, and no exception escapes. -/
theorem c4_counterexample :
    (executar_extracao (Except.ok selSemCampoCpf) "stream.txt"
        (envOk [⟨some "111"⟩]) fsEmpty).err = none ∧
    (executar_extracao (Except.ok selSemCampoCpf) "stream.txt"
        (envOk [⟨some "111"⟩]) fsEmpty).resultados.length = 1 ∧
    (executar_extracao (Except.ok selSemCampoCpf) "stream.txt"
        (envOk [⟨some "111"⟩]) fsEmpty).streamLines = ["111;erro;erro: KeyError\n"] ∧
    selLookup selSemCampoCpf "campo_cpf" = none := by decide

/-- C4 as amended: if a selector key required during session
establishment or navigation (`campo_usuario`, `campo_senha`,
`botao_entrar`, `menu_cadastro`, `menu_proposta`) is absent, then —
whatever the external environment does — the batch fails with an escaping
exception before any record is processed, and the stream log holds only
its header line. -/
theorem c4_amended_session_key_missing_aborts_before_records
    (sel : Selectors) (path : String) (env : Env) (fs : FileSystem)
    (h : sessionKeyMissing sel = true) :
    (executar_extracao (Except.ok sel) path env fs).err.isSome ∧
    (executar_extracao (Except.ok sel) path env fs).resultados = [] ∧
    (executar_extracao (Except.ok sel) path env fs).streamLines = [] ∧
    (executar_extracao (Except.ok sel) path env fs).fs path
        = ["cpf;status;mensagem\n"] := by
  unfold executar_extracao
  dsimp only
  cases hd : env.driverStart with
  | some e => simp [inicializar_streaming, fsWrite]
  | none =>
    simp only [reduceIte]
    cases hl : login sel env.loginB with
    | error e => simp [inicializar_streaming, fsWrite]
    | ok u =>
      cases hn : navegar_para_modulo_consulta sel env.navB with
      | error e => simp [inicializar_streaming, fsWrite]
      | ok v =>
        exfalso
        have k1 := login_ok_keys sel env.loginB u hl
        have k2 := navegar_ok_keys sel env.navB v hn
        simp only [sessionKeyMissing, sessionKeys, List.any_cons, List.any_nil,
          Bool.or_eq_true, Bool.or_false, Option.isNone_iff_eq_none] at h
        rcases h with h | h | h | h | h <;> simp_all

/-- Witness for the amended C4: the login key `campo_usuario` is
missing. -/
theorem c4_amended_witness :
    (executar_extracao (Except.ok selSemCampoUsuario) "stream.txt"
        (envOk [⟨some "111"⟩]) fsEmpty).err.isSome ∧
    (executar_extracao (Except.ok selSemCampoUsuario) "stream.txt"
        (envOk [⟨some "111"⟩]) fsEmpty).resultados = [] ∧
    (executar_extracao (Except.ok selSemCampoUsuario) "stream.txt"
        (envOk [⟨some "111"⟩]) fsEmpty).streamLines = [] ∧
    (executar_extracao (Except.ok selSemCampoUsuario) "stream.txt"
        (envOk [⟨some "111"⟩]) fsEmpty).fs "stream.txt"
        = ["cpf;status;mensagem\n"] :=
  c4_amended_session_key_missing_aborts_before_records selSemCampoUsuario "stream.txt"
    (envOk [⟨some "111"⟩]) fsEmpty (by decide)

/-- C5 counterexample: for the batch `["111", "", "222"]` the progress
denominators are all `3 = len(registros)` (line 308 computes the total
before the skip check), not `2`, even though only 2 records have a
non-empty identifier. -/
theorem c5_counterexample :
    ((executar_extracao (Except.ok selFull) "stream.txt" (envOk rows5) fsEmpty).progress.map
        Prod.snd) = [3, 3] ∧
    (validCpfs rows5).length = 2 := by decide

/-- C5 as amended: for the batch `["111", "", "222"]` the progress
report's denominator is 3 — the full input record count, skipped rows
included — and reports are emitted at loop indices 1 and 3 (none for the
skipped row). -/
theorem c5_amended_progress_total_counts_all_rows :
    (executar_extracao (Except.ok selFull) "stream.txt" (envOk rows5) fsEmpty).progress
        = [(1, 3), (3, 3)] ∧
    rows5.length = 3 := by decide

end ExtratorPortal
